import Mathlib

/-!
Shallow embedding of the valmiki age/gender prediction service
(`app/predictor.py`, `app/main.py`, `app/grpc_server.py`).

The neural-network inference engine (OpenCV DNN), image decoding and the
wire frameworks are external capabilities; they are modelled as function
parameters (`Env`, the net fields of `ModelBundle`) that may either return
a value or raise a Python exception (`Except PyExc`).  Everything written
in the repository itself (face selection, clamping, padding/cropping,
bucket mapping, the two front-end handlers) is translated directly from
the source.
-/

/-- Model of a Python exception escaping an external call: `cv2.error`
(caught by `except cv2.error` in `predict_age_gender`) or any other
exception (caught by `except Exception`). -/
inductive PyExc where
  | cvError (msg : String)
  | otherError (msg : String)
deriving DecidableEq

/-- Model of a decoded image (`cv2.imdecode` result): only the shape
`frame.shape[:2] = (h, w)` is ever inspected by the repository code
(the pixel contents are consumed solely by the opaque nets). -/
structure Image where
  h : ℕ
  w : ℕ
deriving DecidableEq

/-- One detection record `detections[0, 0, i]` of the face net: the
confidence `detections[0,0,i,2]` and the normalized box coordinates
`detections[0,0,i,3:7]`, modelled as exact rationals standing for the
floats. -/
structure Detection where
  confidence : ℚ
  x1 : ℚ
  y1 : ℚ
  x2 : ℚ
  y2 : ℚ
deriving DecidableEq

/-- Pixel face box `(startX, startY, endX, endY)` as returned by
`_find_face`. -/
structure FBox where
  startX : ℤ
  startY : ℤ
  endX : ℤ
  endY : ℤ
deriving DecidableEq

/-- `FACE_CONFIDENCE_THRESHOLD = 0.5` from `predictor.py`. -/
def FACE_CONFIDENCE_THRESHOLD : ℚ := 1/2

/-- `AGE_BUCKETS` from `predictor.py`. -/
def AGE_BUCKETS : List String :=
  ["(0-2)", "(4-6)", "(8-12)", "(15-20)", "(25-32)", "(38-43)", "(48-53)", "(60-100)"]

/-- `GENDER_LIST` from `predictor.py`. -/
def GENDER_LIST : List String := ["Male", "Female"]

/-- Truncation toward zero: the semantics of numpy `box.astype("int")`
(C cast) applied to a float, modelled on ℚ. -/
def truncZ (q : ℚ) : ℤ := if q < 0 then ⌈q⌉ else ⌊q⌋

/-- Scaling of a detection's normalized coordinates by
`np.array([w, h, w, h])`, `astype("int")`, followed by the clamping
`startX = max(0, startX)` … `endY = min(h - 1, endY)` from
`_find_face`. -/
def clipBox (w h : ℤ) (d : Detection) : FBox :=
  ⟨max 0 (truncZ (d.x1 * (w : ℚ))),
   max 0 (truncZ (d.y1 * (h : ℚ))),
   min (w - 1) (truncZ (d.x2 * (w : ℚ))),
   min (h - 1) (truncZ (d.y2 * (h : ℚ)))⟩

/-- One iteration of the detection loop in `_find_face` (lines 50-64 of
`predictor.py`).  State: `(best_face_box, max_confidence)`.  Note that
`max_confidence` is updated whenever the confidence test passes, even
when the clipped box is degenerate and `best_face_box` is left as it
was. -/
def find_face_step (w h : ℤ) (st : Option FBox × ℚ) (d : Detection) : Option FBox × ℚ :=
  if d.confidence > FACE_CONFIDENCE_THRESHOLD ∧ d.confidence > st.2 then
    if (clipBox w h d).endX > (clipBox w h d).startX ∧ (clipBox w h d).endY > (clipBox w h d).startY then
      (some (clipBox w h d), d.confidence)
    else (st.1, d.confidence)
  else st

/-- Detection-selection loop of `_find_face`, folded over the detection
records with initial state `best_face_box = None`, `max_confidence = 0.0`;
returns the final `best_face_box`. -/
def find_face_loop (w h : ℤ) (ds : List Detection) : Option FBox :=
  (ds.foldl (find_face_step w h) (none, 0)).1

/-- Type of the loaded face net: from the frame it produces the detection
records (`blobFromImage` + `setInput` + `forward`, folded into one opaque
call that may raise). -/
abbrev FaceNetFn := Image → Except PyExc (List Detection)

/-- Type of a loaded classifier net (age or gender): from the blob it
produces the score row `preds[0]` (may raise). -/
abbrev ClassNetFn := Image → Except PyExc (List ℚ)

/-- The three module-level model handles of `predictor.py`; each is
either a loaded net or `None`. -/
structure ModelBundle where
  face_net : Option FaceNetFn
  age_net : Option ClassNetFn
  gender_net : Option ClassNetFn

/-- External capabilities used by `predict_age_gender` that do not belong
to the model bundle: `cv2.imdecode` (returning `None` for undecodable
bytes) and `cv2.dnn.blobFromImage` on the face crop. -/
structure Env where
  imdecode : List ℕ → Except PyExc (Option Image)
  make_blob : Image → Except PyExc Image

/-- `_find_face` of `predictor.py`: `None` when the face net is not
loaded, otherwise the result of the selection loop over the net's
detections (the net call may raise, and the exception propagates to the
caller's `try`). -/
def _find_face (face_net : Option FaceNetFn) (frame : Image) : Except PyExc (Option FBox) :=
  match face_net with
  | none => .ok none
  | some net =>
    match net frame with
    | .error e => .error e
    | .ok ds => .ok (find_face_loop (frame.w : ℤ) (frame.h : ℤ) ds)

/-- Numpy slice-index normalization for one axis of length `n` (step 1):
negative indices count from the end, then the index is clipped into
`[0, n]`. -/
def npNormIdx (n i : ℤ) : ℤ := if i < 0 then max 0 (n + i) else min i n

/-- Length of the numpy slice `a:b` over an axis of length `n`. -/
def npSliceLen (n a b : ℤ) : ℕ := (npNormIdx n b - npNormIdx n a).toNat

/-- The padded crop
`frame[max(0, startY-20):min(h, endY+20), max(0, startX-20):min(w, endX+20)]`
from `predict_age_gender` (padding = 20). -/
def cropPad (frame : Image) (b : FBox) : Image :=
  ⟨npSliceLen (frame.h : ℤ) (max 0 (b.startY - 20)) (min (frame.h : ℤ) (b.endY + 20)),
   npSliceLen (frame.w : ℤ) (max 0 (b.startX - 20)) (min (frame.w : ℤ) (b.endX + 20))⟩

/-- Size of a (3-channel, `IMREAD_COLOR`) image region, `face.size` in
numpy terms. -/
def pySize (img : Image) : ℕ := img.h * img.w * 3

/-- Helper for numpy `argmax`: first maximum wins (strict `>` against the
running best). -/
def argmax_go : List ℚ → ℕ → ℚ → ℕ → ℕ
  | [], _, _, besti => besti
  | x :: xs, i, bestv, besti =>
    if x > bestv then argmax_go xs (i + 1) x i else argmax_go xs (i + 1) bestv besti

/-- Numpy `preds[0].argmax()`: raises `ValueError` on an empty score row,
otherwise returns the index of the first maximal score. -/
def np_argmax : List ℚ → Except PyExc ℕ
  | [] => .error (.otherError "attempt to get argmax of an empty sequence")
  | x :: xs => .ok (argmax_go xs 1 x 0)

/-- Python list indexing `l[i]` for a non-negative index: raises
`IndexError` when out of range. -/
def py_index (l : List String) (i : ℕ) : Except PyExc String :=
  match l.get? i with
  | some s => .ok s
  | none => .error (.otherError "list index out of range")

/-- Result value of `predict_age_gender`: Python `None`, the dict
`{"error": msg}`, or the dict `{"age": age, "gender": gender}`. -/
inductive PredResult where
  | none_result : PredResult
  | error (msg : String) : PredResult
  | success (age gender : String) : PredResult
deriving DecidableEq

/-- Body of the `try` block of `predict_age_gender` (lines 89-135 of
`predictor.py`), with the loaded age/gender nets in hand; a `.error`
outcome is a Python exception escaping the block. -/
def predict_body (env : Env) (face_net : Option FaceNetFn) (anet gnet : ClassNetFn)
    (image_bytes : List ℕ) : Except PyExc PredResult :=
  match env.imdecode image_bytes with
  | .error e => .error e
  | .ok none => .ok .none_result
  | .ok (some frame) =>
    if frame.h = 0 ∨ frame.w = 0 then .ok .none_result
    else
      match _find_face face_net frame with
      | .error e => .error e
      | .ok none => .ok (.error "No face detected")
      | .ok (some box) =>
        if pySize (cropPad frame box) = 0 then .ok (.error "Failed to extract face region")
        else
          match env.make_blob (cropPad frame box) with
          | .error e => .error e
          | .ok blob =>
            match gnet blob with
            | .error e => .error e
            | .ok gender_preds =>
              match np_argmax gender_preds with
              | .error e => .error e
              | .ok gi =>
                match py_index GENDER_LIST gi with
                | .error e => .error e
                | .ok gender =>
                  match anet blob with
                  | .error e => .error e
                  | .ok age_preds =>
                    match np_argmax age_preds with
                    | .error e => .error e
                    | .ok ai =>
                      match py_index AGE_BUCKETS ai with
                      | .error e => .error e
                      | .ok age => .ok (.success age gender)

/-- `predict_age_gender` of `predictor.py`: `None` when the age or gender
net is not loaded (checked before the `try`), otherwise the body's value,
with an escaping exception converted by the two `except` clauses into the
corresponding `{"error": …}` dict. -/
def predict_age_gender (env : Env) (b : ModelBundle) (image_bytes : List ℕ) : PredResult :=
  match b.age_net, b.gender_net with
  | some anet, some gnet =>
    match predict_body env b.face_net anet gnet image_bytes with
    | .ok r => r
    | .error (.cvError m) => .error ("OpenCV processing error: " ++ m)
    | .error (.otherError m) => .error ("An unexpected server error occurred: " ++ m)
  | _, _ => .none_result

/-- ASCII lowercase conversion of one character, the effect of Python
`str.lower()` on the label strings involved here. -/
def lowerChar (c : Char) : Char :=
  if 'A' ≤ c ∧ c ≤ 'Z' then Char.ofNat (c.toNat + 32) else c

/-- Python `s.lower()` restricted to ASCII, applied characterwise. -/
def pyLower (s : String) : String := String.mk (s.data.map lowerChar)

/-- Containment of `needle` in `hay` as a character list, the semantics of
Python `needle in hay` on strings. -/
def containsSubChars (needle : List Char) : List Char → Bool
  | [] => needle.isEmpty
  | c :: rest => needle.isPrefixOf (c :: rest) || containsSubChars needle rest

/-- Python substring test `needle in hay`. -/
def containsSub (needle hay : String) : Bool := containsSubChars needle.data hay.data

/-- Membership of a character in the strip set `'()'`. -/
def parenChar (c : Char) : Bool := c = '(' || c = ')'

/-- Python `s.strip('()')`: remove leading and trailing characters drawn
from the set `{'(', ')'}`. -/
def pyStripParens (s : String) : String :=
  String.mk (((s.data.dropWhile parenChar).reverse.dropWhile parenChar).reverse)

/-- Python `s.split(sep)` for a single-character separator, on character
lists: always returns at least one (possibly empty) group. -/
def pySplitChar (sep : Char) : List Char → List (List Char)
  | [] => [[]]
  | c :: rest =>
    let r := pySplitChar sep rest
    if c = sep then [] :: r
    else
      match r with
      | [] => [[c]]
      | g :: gs => (c :: g) :: gs

/-- Python `s.split(sep)` for a single-character separator. -/
def pySplit (sep : Char) (s : String) : List String :=
  (pySplitChar sep s.data).map String.mk

/-- Parsing of the digit tail of a Python integer literal: digits with
single underscores allowed only between digits (CPython `int(str)`
grammar). -/
def parseDigitsAux : ℕ → List Char → Option ℕ
  | acc, [] => some acc
  | acc, c :: rest =>
    if c.isDigit then parseDigitsAux (10 * acc + (c.toNat - 48)) rest
    else if c = '_' then
      match rest with
      | [] => none
      | d :: rest2 =>
        if d.isDigit then parseDigitsAux (10 * acc + (d.toNat - 48)) rest2 else none
    else none

/-- Parsing of a non-empty digit sequence (first character must be a
digit). -/
def parseDigitsStart : List Char → Option ℕ
  | [] => none
  | c :: rest => if c.isDigit then parseDigitsAux (c.toNat - 48) rest else none

/-- Python `int(str)` for ASCII decimal strings: optional surrounding
whitespace, optional sign, non-empty digit sequence; `none` models the
`ValueError` raised for any other input.  (Unicode digit forms accepted by
CPython are outside the alphabet exercised by this repository.) -/
def pyInt (s : String) : Option ℤ :=
  match (s.data.dropWhile Char.isWhitespace).reverse.dropWhile Char.isWhitespace |>.reverse with
  | '-' :: rest => (parseDigitsStart rest).map (fun n => -(n : ℤ))
  | '+' :: rest => (parseDigitsStart rest).map (fun n => (n : ℤ))
  | l => (parseDigitsStart l).map (fun n => (n : ℤ))

/-- `map_age_to_group` of `grpc_server.py`: strip `'()'`, split on `'-'`,
parse the first part as an integer and bucket it; `ValueError` (failed
parse) and `IndexError` are both caught and mapped to `"adult"`. -/
def map_age_to_group (age_range : String) : String :=
  match pySplit '-' (pyStripParens age_range) with
  | [] => "adult"
  | p :: _ =>
    match pyInt p with
    | none => "adult"
    | some min_age =>
      if min_age < 13 then "child"
      else if min_age < 20 then "teen"
      else if min_age < 35 then "young_adult"
      else if min_age < 50 then "adult"
      else "senior"

/-- Readiness test `all([predictor.face_net, predictor.age_net,
predictor.gender_net])` used by the HTTP front-end (a loaded net object is
truthy, `None` is falsy). -/
def models_ready (b : ModelBundle) : Bool :=
  b.face_net.isSome && b.age_net.isSome && b.gender_net.isSome

/-- HTTP response of the `/predict` endpoint: a 200 JSON body with the
three fields, or an error status with a detail string. -/
inductive HttpResp where
  | ok (age gender age_group : String) : HttpResp
  | err (code : ℕ) (detail : String) : HttpResp
deriving DecidableEq

/-- Status code carried by an `HttpResp`. -/
def HttpResp.statusCode : HttpResp → ℕ
  | .ok _ _ _ => 200
  | .err c _ => c

/-- The `/predict` handler of `main.py`, parametrized by the pipeline
function `pipe` it invokes.  The upload read is modelled by `read_result`
(`.error e` = `file.read()` raised, with `e` the rendering of the
exception).  Note that the `raise HTTPException(400, "Empty file
received.")` for an empty upload sits inside the `try` whose
`except Exception` clause re-raises it wrapped as
`400, "Error reading file: <str(e)>"`; Starlette renders the caught
`HTTPException` as `"400: Empty file received."`, so the status is still
400 with the wrapped detail below. -/
def http_predict (b : ModelBundle) (read_result : Except String (List ℕ))
    (pipe : List ℕ → PredResult) : HttpResp :=
  if models_ready b = false then
    .err 503 "Models are not loaded, service cannot process requests."
  else
    match read_result with
    | .error e => .err 400 ("Error reading file: " ++ e)
    | .ok contents =>
      if contents = [] then .err 400 "Error reading file: 400: Empty file received."
      else
        match pipe contents with
        | .none_result => .err 500 "Prediction failed."
        | .error m =>
          if containsSub "No face detected" m then .err 400 m else .err 500 m
        | .success a g => .ok a g (map_age_to_group a)

/-- The `/predict` endpoint with its actual pipeline,
`predictor.predict_age_gender`, plugged in. -/
def http_full (env : Env) (b : ModelBundle) (read_result : Except String (List ℕ)) : HttpResp :=
  http_predict b read_result (predict_age_gender env b)

/-- Model of `grpc.StatusCode` values relevant to the servicer (`OK` is
the default when `set_code` is never called). -/
inductive GrpcCode where
  | OK
  | INVALID_ARGUMENT
  | FAILED_PRECONDITION
  | INTERNAL
  | UNAVAILABLE
deriving DecidableEq

/-- Observable outcome of one `ValmikiServicer.Predict` call: the status
code and details set on the context, and the returned `PredictResponse`
fields (proto3 defaults `"" / "" / 0` for the bare
`PredictResponse()`). -/
structure GrpcOutcome where
  code : GrpcCode
  details : String
  age_group : String
  gender : String
  confidence : ℚ
deriving DecidableEq

/-- `ValmikiServicer.Predict` of `grpc_server.py`, parametrized by the
pipeline function it invokes.  There is no readiness check: the handler
only tests for an empty payload, then calls the pipeline and translates
its value.  (The surrounding `except Exception` clause is unreachable in
this model since the pipeline and `map_age_to_group` are total.) -/
def grpc_predict (pipe : List ℕ → PredResult) (image_data : List ℕ) : GrpcOutcome :=
  if image_data = [] then ⟨.INVALID_ARGUMENT, "Empty image data", "", "", 0⟩
  else
    match pipe image_data with
    | .none_result => ⟨.INTERNAL, "Prediction failed", "", "", 0⟩
    | .error m =>
      if containsSub "No face detected" m then ⟨.FAILED_PRECONDITION, m, "", "", 0⟩
      else ⟨.INTERNAL, m, "", "", 0⟩
    | .success a g => ⟨.OK, "", map_age_to_group a, pyLower g, 95/100⟩

/-- The RPC handler with its actual pipeline, `predict_age_gender`,
plugged in. -/
def grpc_full (env : Env) (b : ModelBundle) (image_data : List ℕ) : GrpcOutcome :=
  grpc_predict (predict_age_gender env b) image_data

/-- Outcome of the module-level model loading of `predictor.py` (lines
24-33): either all three `cv2.dnn.readNet` calls succeed, or the
`except cv2.error` clause sets all three handles to `None` together. -/
inductive LoadOutcome where
  | success (f : FaceNetFn) (a g : ClassNetFn)
  | failure

/-- The bundle of module-level globals produced by the loading block:
loading is all-or-nothing. -/
def load_models : LoadOutcome → ModelBundle
  | .success f a g => ⟨some f, some a, some g⟩
  | .failure => ⟨none, none, none⟩

/-- Derived age group of a pipeline result (the value the front-ends
attach on success). -/
def result_age_group : PredResult → Option String
  | .success a _ => some (map_age_to_group a)
  | _ => none

/-- Sample detection: confidence 0.6, normalized box (0.1, 0.1, 0.5, 0.5)
(a valid positive-area box in a 100 × 100 image). -/
def detMid : Detection := ⟨3/5, 1/10, 1/10, 1/2, 1/2⟩

/-- Sample detection with higher confidence 0.9 whose box (0.2, 0.2, 0.2,
0.2) clips to a degenerate (zero-area) pixel box. -/
def detBig : Detection := ⟨9/10, 1/5, 1/5, 1/5, 1/5⟩

/-- Sample detection below the 0.5 confidence threshold. -/
def detLow : Detection := ⟨2/5, 0, 0, 1, 1⟩

/-- Pixel box of `detMid` in a 100 × 100 image. -/
def boxMid : FBox := ⟨10, 10, 50, 50⟩

/-- Environment whose decoder returns `None` on every byte string: every
upload is undecodable (`cv2.imdecode` failure). -/
def envUndec : Env := ⟨fun _ => .ok none, fun f => .ok f⟩

/-- Environment whose decoder raises `cv2.error`. -/
def envRaise : Env := ⟨fun _ => .error (.cvError "decode blew up"), fun f => .ok f⟩

/-- Environment that decodes any non-empty byte string to a 100 × 100
image (and fails on the empty byte string, as `cv2.imdecode` does). -/
def envOK : Env :=
  ⟨fun bs => if bs = [] then .ok none else .ok (some ⟨100, 100⟩), fun f => .ok f⟩

/-- Loaded face net whose forward pass yields the single detection
`detMid`. -/
def faceNet1 : FaceNetFn := fun _ => .ok [detMid]

/-- Loaded gender net: scores `[1, 0]`, argmax 0, label `"Male"`. -/
def genderNet1 : ClassNetFn := fun _ => .ok [1, 0]

/-- Loaded age net: scores with argmax 4, bucket `"(25-32)"`. -/
def ageNet1 : ClassNetFn := fun _ => .ok [0, 0, 0, 0, 1, 0, 0, 0]

/-- Fully loaded model bundle built from the sample nets. -/
def bundleOK : ModelBundle := ⟨some faceNet1, some ageNet1, some genderNet1⟩

/-- Property of a box produced inside the selection loop: it is the exact
clip of a detection whose confidence beat the threshold, and it has
positive area. -/
def goodDet (w h : ℤ) (d : Detection) (b : FBox) : Prop :=
  d.confidence > FACE_CONFIDENCE_THRESHOLD ∧ b = clipBox w h d ∧
    b.startX < b.endX ∧ b.startY < b.endY

theorem find_face_step_cases (w h : ℤ) (st : Option FBox × ℚ) (d : Detection) (b : FBox)
    (hb : (find_face_step w h st d).1 = some b) :
    st.1 = some b ∨ goodDet w h d b := by
  unfold find_face_step at hb
  split at hb
  · rename_i hcond
    split at hb
    · rename_i harea
      simp only [Prod.fst] at hb
      refine Or.inr ⟨hcond.1, ?_, ?_, ?_⟩
      · exact (Option.some.injEq _ _ ▸ hb).symm ▸ rfl
      · cases hb; exact harea.1
      · cases hb; exact harea.2
    · exact Or.inl hb
  · exact Or.inl hb

theorem find_face_foldl_cases (w h : ℤ) (ds : List Detection) (st : Option FBox × ℚ) (b : FBox)
    (hfold : (ds.foldl (find_face_step w h) st).1 = some b) :
    st.1 = some b ∨ ∃ d ∈ ds, goodDet w h d b := by
  induction ds generalizing st with
  | nil => exact Or.inl hfold
  | cons d ds ih =>
    rw [List.foldl_cons] at hfold
    rcases ih (find_face_step w h st d) hfold with h1 | ⟨d', hmem, hg⟩
    · rcases find_face_step_cases w h st d b h1 with h2 | hg
      · exact Or.inl h2
      · exact Or.inr ⟨d, List.mem_cons_self d ds, hg⟩
    · exact Or.inr ⟨d', List.mem_cons_of_mem d hmem, hg⟩

theorem find_face_loop_sound (w h : ℤ) (ds : List Detection) (b : FBox)
    (hb : find_face_loop w h ds = some b) : ∃ d ∈ ds, goodDet w h d b := by
  rcases find_face_foldl_cases w h ds (none, 0) b hb with h1 | h2
  · exact absurd h1 (by simp)
  · exact h2

theorem clipBox_mem (w h : ℤ) (d : Detection) :
    0 ≤ (clipBox w h d).startX ∧ 0 ≤ (clipBox w h d).startY ∧
      (clipBox w h d).endX ≤ w - 1 ∧ (clipBox w h d).endY ≤ h - 1 := by
  unfold clipBox
  refine ⟨?_, ?_, ?_, ?_⟩ <;> simp

theorem find_face_loop_box (w h : ℤ) (ds : List Detection) (b : FBox)
    (hb : find_face_loop w h ds = some b) :
    (∃ d ∈ ds, goodDet w h d b) ∧
      0 ≤ b.startX ∧ b.startX < b.endX ∧ b.endX ≤ w - 1 ∧
      0 ≤ b.startY ∧ b.startY < b.endY ∧ b.endY ≤ h - 1 := by
  obtain ⟨d, hmem, hg⟩ := find_face_loop_sound w h ds b hb
  obtain ⟨hc, hbe, hx, hy⟩ := hg
  have hm := clipBox_mem w h d
  rw [← hbe] at hm
  exact ⟨⟨d, hmem, hc, hbe, hx, hy⟩, hm.1, hx, hm.2.2.1, hm.2.1, hy, hm.2.2.2⟩

theorem find_face_step_skip (w h : ℤ) (st : Option FBox × ℚ) (d : Detection)
    (hd : ¬ d.confidence > FACE_CONFIDENCE_THRESHOLD) : find_face_step w h st d = st := by
  unfold find_face_step
  rw [if_neg]
  intro hcon
  exact hd hcon.1

theorem find_face_foldl_skip (w h : ℤ) (ds : List Detection)
    (hds : ∀ d ∈ ds, ¬ d.confidence > FACE_CONFIDENCE_THRESHOLD) (st : Option FBox × ℚ) :
    ds.foldl (find_face_step w h) st = st := by
  induction ds generalizing st with
  | nil => rfl
  | cons d ds ih =>
    rw [List.foldl_cons, find_face_step_skip w h st d (hds d (List.mem_cons_self d ds))]
    exact ih (fun d' hd' => hds d' (List.mem_cons_of_mem d hd')) st

theorem find_face_loop_none (w h : ℤ) (ds : List Detection)
    (hds : ∀ d ∈ ds, ¬ d.confidence > FACE_CONFIDENCE_THRESHOLD) :
    find_face_loop w h ds = none := by
  unfold find_face_loop
  rw [find_face_foldl_skip w h ds hds]

theorem cropPad_size_pos (frame : Image) (b : FBox)
    (hh : 0 < frame.h) (hw : 0 < frame.w)
    (h1 : 0 ≤ b.startX) (h2 : b.startX < b.endX) (h3 : b.endX ≤ (frame.w : ℤ) - 1)
    (h4 : 0 ≤ b.startY) (h5 : b.startY < b.endY) (h6 : b.endY ≤ (frame.h : ℤ) - 1) :
    pySize (cropPad frame b) ≠ 0 := by
  have hX : npSliceLen (frame.h : ℤ) (max 0 (b.startY - 20)) (min (frame.h : ℤ) (b.endY + 20)) ≠ 0 := by
    simp only [npSliceLen, npNormIdx]
    split_ifs <;> omega
  have hY : npSliceLen (frame.w : ℤ) (max 0 (b.startX - 20)) (min (frame.w : ℤ) (b.endX + 20)) ≠ 0 := by
    simp only [npSliceLen, npNormIdx]
    split_ifs <;> omega
  simp only [pySize, cropPad]
  exact Nat.mul_ne_zero (Nat.mul_ne_zero hX hY) (by norm_num)

theorem py_index_mem (l : List String) (i : ℕ) (s : String) (h : py_index l i = .ok s) :
    s ∈ l := by
  unfold py_index at h
  split at h
  · rename_i s' hs
    cases h
    exact List.get?_mem hs
  · cases h

theorem predict_body_success (env : Env) (fnet : Option FaceNetFn) (anet gnet : ClassNetFn)
    (bytes : List ℕ) (a g : String)
    (h : predict_body env fnet anet gnet bytes = .ok (.success a g)) :
    a ∈ AGE_BUCKETS ∧ (g = "Male" ∨ g = "Female") := by
  unfold predict_body at h
  split at h
  · simp at h
  · simp at h
  · split at h
    · simp at h
    · split at h
      · simp at h
      · simp at h
      · split at h
        · simp at h
        · split at h
          · simp at h
          · split at h
            · simp at h
            · split at h
              · simp at h
              · split at h
                · simp at h
                · rename_i gender hgidx
                  split at h
                  · simp at h
                  · split at h
                    · simp at h
                    · split at h
                      · simp at h
                      · rename_i age haidx
                        simp only [Except.ok.injEq, PredResult.success.injEq] at h
                        obtain ⟨ha, hg⟩ := h
                        subst ha
                        subst hg
                        constructor
                        · exact py_index_mem _ _ _ haidx
                        · have hm := py_index_mem _ _ _ hgidx
                          simpa [GENDER_LIST] using hm

theorem predict_body_no_crop_fail (env : Env) (fnet : Option FaceNetFn) (anet gnet : ClassNetFn)
    (bytes : List ℕ) :
    predict_body env fnet anet gnet bytes ≠ .ok (.error "Failed to extract face region") := by
  intro h
  unfold predict_body at h
  split at h
  · simp at h
  · simp at h
  · rename_i frame hdec
    split at h
    · simp at h
    · rename_i hdim
      split at h
      · simp at h
      · injection h with h1
        exact absurd h1 (by decide)
      · rename_i box hff
        split at h
        · rename_i hsz
          unfold _find_face at hff
          split at hff
          · simp at hff
          · split at hff
            · simp at hff
            · rename_i ds hds
              simp only [Except.ok.injEq] at hff
              have hb := find_face_loop_box (frame.w : ℤ) (frame.h : ℤ) ds box hff
              exact cropPad_size_pos frame box (by omega) (by omega)
                hb.2.1 hb.2.2.1 hb.2.2.2.1 hb.2.2.2.2.1 hb.2.2.2.2.2.1 hb.2.2.2.2.2.2 hsz
        · split at h
          · simp at h
          · split at h
            · simp at h
            · split at h
              · simp at h
              · split at h
                · simp at h
                · split at h
                  · simp at h
                  · split at h
                    · simp at h
                    · split at h
                      · simp at h
                      · simp at h

theorem msg_head_cv (m : String) :
    ("OpenCV processing error: " ++ m).data.head? = some 'O' := rfl

theorem msg_head_other (m : String) :
    ("An unexpected server error occurred: " ++ m).data.head? = some 'A' := rfl

theorem cv_msg_ne_crop (m : String) :
    ("OpenCV processing error: " ++ m) ≠ "Failed to extract face region" := by
  intro h
  have h2 : ("OpenCV processing error: " ++ m).data.head? =
      ("Failed to extract face region" : String).data.head? := by rw [h]
  rw [msg_head_cv] at h2
  exact absurd h2 (by decide)

theorem other_msg_ne_crop (m : String) :
    ("An unexpected server error occurred: " ++ m) ≠ "Failed to extract face region" := by
  intro h
  have h2 : ("An unexpected server error occurred: " ++ m).data.head? =
      ("Failed to extract face region" : String).data.head? := by rw [h]
  rw [msg_head_other] at h2
  exact absurd h2 (by decide)

theorem predict_no_crop_fail (env : Env) (b : ModelBundle) (bytes : List ℕ) :
    predict_age_gender env b bytes ≠ .error "Failed to extract face region" := by
  unfold predict_age_gender
  split
  · rename_i anet gnet ha hg
    split
    · rename_i r hr
      intro hc
      rw [hc] at hr
      exact predict_body_no_crop_fail env _ anet gnet bytes hr
    · rename_i m _
      intro hc
      injection hc with hm
      exact cv_msg_ne_crop m hm
    · rename_i m _
      intro hc
      injection hc with hm
      exact other_msg_ne_crop m hm
  · simp

theorem predict_success_labels (env : Env) (b : ModelBundle) (bs : List ℕ) (a g : String)
    (h : predict_age_gender env b bs = .success a g) :
    a ∈ AGE_BUCKETS ∧ (g = "Male" ∨ g = "Female") := by
  unfold predict_age_gender at h
  split at h
  · rename_i anet gnet ha hg
    split at h
    · rename_i r hr
      rw [h] at hr
      exact predict_body_success _ _ _ _ _ _ _ hr
    · exact PredResult.noConfusion h
    · exact PredResult.noConfusion h
  · exact PredResult.noConfusion h

theorem find_face_loop_detMid : find_face_loop 100 100 [detMid] = some boxMid := by
  norm_num [find_face_loop, List.foldl, find_face_step, FACE_CONFIDENCE_THRESHOLD,
    clipBox, truncZ, detMid, boxMid]

theorem predict_envOK : predict_age_gender envOK bundleOK [1] = .success "(25-32)" "Male" := by
  norm_num [predict_age_gender, predict_body, envOK, bundleOK, faceNet1, ageNet1, genderNet1,
    _find_face, find_face_loop, List.foldl, find_face_step, FACE_CONFIDENCE_THRESHOLD,
    clipBox, truncZ, detMid, cropPad, npSliceLen, npNormIdx, pySize, np_argmax, argmax_go,
    py_index, GENDER_LIST, AGE_BUCKETS]

/-- C1 counterexample: in a 100 × 100 image with detections
`[detMid, detBig]`, the qualifying detection of maximal confidence is
`detBig` (0.9 > 0.6) and its clipped box is degenerate, so by the claim
`_find_face` should return no box; the loop instead returns the box of
the lower-confidence detection `detMid`, because the degenerate candidate
only poisons `max_confidence` without clearing `best_face_box`. -/
theorem C1_counterexample :
    find_face_loop 100 100 [detMid, detBig] = some boxMid ∧
      detBig.confidence > FACE_CONFIDENCE_THRESHOLD ∧
      detMid.confidence < detBig.confidence ∧
      (clipBox 100 100 detBig).endX = (clipBox 100 100 detBig).startX ∧
      boxMid ≠ clipBox 100 100 detBig ∧
      find_face_loop 100 100 [detMid, detBig] ≠ none := by
  have h1 : find_face_loop 100 100 [detMid, detBig] = some boxMid := by
    norm_num [find_face_loop, List.foldl, find_face_step, FACE_CONFIDENCE_THRESHOLD,
      clipBox, truncZ, detMid, detBig, boxMid]
  refine ⟨h1, ?_, ?_, ?_, ?_, ?_⟩
  · norm_num [detBig, FACE_CONFIDENCE_THRESHOLD]
  · norm_num [detMid, detBig]
  · norm_num [clipBox, truncZ, detBig]
  · norm_num [clipBox, truncZ, detBig, boxMid, FBox.mk.injEq]
  · rw [h1]
    simp

/-- C1 (amended): any box returned by the `_find_face` selection loop is
the exact clip (to `[0, w-1] × [0, h-1]`) of some detection whose
confidence strictly exceeds the 0.5 threshold, and it has positive area;
if no detection exceeds the threshold, no box is returned.  However, when
the highest-confidence qualifying detection clips to a degenerate box, the
loop may return the positive-area box of an earlier, lower-confidence
qualifying detection rather than nothing (see the counterexample). -/
theorem C1_find_face_selection (w h : ℤ) (ds : List Detection) :
    (∀ b, find_face_loop w h ds = some b →
      ∃ d ∈ ds, d.confidence > FACE_CONFIDENCE_THRESHOLD ∧ b = clipBox w h d ∧
        b.startX < b.endX ∧ b.startY < b.endY ∧
        0 ≤ b.startX ∧ 0 ≤ b.startY ∧ b.endX ≤ w - 1 ∧ b.endY ≤ h - 1) ∧
    ((∀ d ∈ ds, d.confidence ≤ FACE_CONFIDENCE_THRESHOLD) → find_face_loop w h ds = none) := by
  constructor
  · intro b hb
    obtain ⟨⟨d, hmem, hc, hbe, hx, hy⟩, h1, h2, h3, h4, h5, h6⟩ :=
      find_face_loop_box w h ds b hb
    exact ⟨d, hmem, hc, hbe, h2, h5, h1, h4, h3, h6⟩
  · intro hall
    exact find_face_loop_none w h ds (fun d hd => not_lt.mpr (hall d hd))

/-- C1 witness: the selection property instantiated on the singleton
detection list `[detMid]` in a 100 × 100 image, and the empty outcome on
the below-threshold list `[detLow]`. -/
theorem C1_witness :
    (∃ d ∈ [detMid], d.confidence > FACE_CONFIDENCE_THRESHOLD ∧ boxMid = clipBox 100 100 d ∧
      boxMid.startX < boxMid.endX ∧ boxMid.startY < boxMid.endY ∧
      0 ≤ boxMid.startX ∧ 0 ≤ boxMid.startY ∧ boxMid.endX ≤ 100 - 1 ∧ boxMid.endY ≤ 100 - 1) ∧
    find_face_loop 100 100 [detLow] = none := by
  constructor
  · exact (C1_find_face_selection 100 100 [detMid]).1 boxMid find_face_loop_detMid
  · refine (C1_find_face_selection 100 100 [detLow]).2 ?_
    intro d hd
    rw [List.mem_singleton] at hd
    subst hd
    norm_num [detLow, FACE_CONFIDENCE_THRESHOLD]

/-- C2: `map_age_to_group` is total and deterministic — it always returns
one of the five categories; whenever the first bound of the bucket string
parses to an integer `n`, the category is chosen by the inclusive
lower-bound thresholds `<13 / <20 / <35 / <50 / else`; and the spec's
example buckets map as stated, with unparseable input falling back to
`"adult"`. -/
theorem C2_map_age_to_group_total :
    (∀ s, map_age_to_group s = "child" ∨ map_age_to_group s = "teen" ∨
      map_age_to_group s = "young_adult" ∨ map_age_to_group s = "adult" ∨
      map_age_to_group s = "senior") ∧
    (∀ s n, pyInt ((pySplit '-' (pyStripParens s)).headD "") = some n →
      map_age_to_group s =
        (if n < 13 then "child" else if n < 20 then "teen"
         else if n < 35 then "young_adult" else if n < 50 then "adult" else "senior")) ∧
    map_age_to_group "(0-2)" = "child" ∧ map_age_to_group "(4-6)" = "child" ∧
    map_age_to_group "(15-20)" = "teen" ∧ map_age_to_group "(25-32)" = "young_adult" ∧
    map_age_to_group "(38-43)" = "adult" ∧ map_age_to_group "(60-100)" = "senior" ∧
    map_age_to_group "garbage" = "adult" := by
  refine ⟨?_, ?_, by decide, by decide, by decide, by decide, by decide, by decide, by decide⟩
  · intro s
    unfold map_age_to_group
    split
    · tauto
    · split
      · tauto
      · split_ifs <;> tauto
  · intro s n hparse
    unfold map_age_to_group
    split
    · rename_i hsplit
      rw [hsplit] at hparse
      rw [List.headD_nil] at hparse
      rw [show pyInt "" = none from rfl] at hparse
      exact Option.noConfusion hparse
    · rename_i p rest hsplit
      rw [hsplit] at hparse
      rw [List.headD_cons] at hparse
      rw [hparse]

/-- C2 witness: the threshold clause of the totality theorem applied at
the concrete bucket `"(25-32)"`, whose first bound parses to 25. -/
theorem C2_witness :
    map_age_to_group "(25-32)" =
      (if (25 : ℤ) < 13 then "child" else if (25 : ℤ) < 20 then "teen"
       else if (25 : ℤ) < 35 then "young_adult" else if (25 : ℤ) < 50 then "adult"
       else "senior") :=
  C2_map_age_to_group_total.2.1 "(25-32)" 25 (by decide)

/-- C3 counterexample: with the bundle left not-ready by a failed load and
a non-empty payload, the RPC handler does not return a service-unavailable
status: it invokes the pipeline (which returns no result because the
age/gender handles are null) and answers INTERNAL "Prediction failed". -/
theorem C3_counterexample :
    grpc_full envOK (load_models .failure) [1] =
        ⟨.INTERNAL, "Prediction failed", "", "", 0⟩ ∧
      GrpcCode.INTERNAL ≠ GrpcCode.UNAVAILABLE := by
  exact ⟨rfl, by decide⟩

/-- C3 (amended): when the ModelBundle is not ready the HTTP `/predict`
handler returns 503 without invoking the pipeline (the response is the
same for every pipeline function); the RPC handler has no readiness gate —
for a bundle produced by a failed load and a non-empty payload it calls
`predict_age_gender`, which returns no result, and answers INTERNAL
"Prediction failed" rather than a service-unavailable status. -/
theorem C3_readiness_gate :
    (∀ (b : ModelBundle) (rr : Except String (List ℕ)) (pipe : List ℕ → PredResult),
      models_ready b = false →
      http_predict b rr pipe = .err 503 "Models are not loaded, service cannot process requests.") ∧
    (∀ (env : Env) (o : LoadOutcome) (data : List ℕ),
      (load_models o).face_net = none → data ≠ [] →
      grpc_full env (load_models o) data = ⟨.INTERNAL, "Prediction failed", "", "", 0⟩) := by
  constructor
  · intro b rr pipe h
    unfold http_predict
    rw [h]
    simp
  · intro env o data hface hdata
    cases o with
    | success f a g => simp [load_models] at hface
    | failure =>
      unfold grpc_full grpc_predict
      rw [if_neg hdata]
      rfl

/-- C3 witness: the readiness behaviour instantiated on the failed-load
bundle with a non-empty request on both front-ends. -/
theorem C3_witness :
    http_predict (load_models .failure) (.ok [1])
        (predict_age_gender envOK (load_models .failure)) =
        .err 503 "Models are not loaded, service cannot process requests." ∧
      grpc_full envOK (load_models .failure) [2] =
        ⟨.INTERNAL, "Prediction failed", "", "", 0⟩ :=
  ⟨C3_readiness_gate.1 (load_models .failure) (.ok [1])
      (predict_age_gender envOK (load_models .failure)) rfl,
   C3_readiness_gate.2 envOK .failure [2] rfl (by decide)⟩

/-- C4 counterexample: with models ready, an upload whose bytes are read
fine but cannot be decoded as an image makes `predict_age_gender` return
no result (`cv2.imdecode` gives `None`), which the HTTP handler maps to
500 "Prediction failed.", not to the 400 the claim prescribes for an
undecodable file. -/
theorem C4_counterexample :
    http_full envUndec bundleOK (.ok [1]) = .err 500 "Prediction failed." ∧
      (http_full envUndec bundleOK (.ok [1])).statusCode ≠ 400 := by
  have h : http_full envUndec bundleOK (.ok [1]) = .err 500 "Prediction failed." := rfl
  exact ⟨h, by rw [h]; decide⟩

/-- C4 (amended): with models ready, the HTTP `/predict` handler returns
400 when the upload read raises or the file is empty; 500 when the
pipeline returns no result (which is what an undecodable image produces);
400 when the pipeline error contains "No face detected" and 500 for any
other pipeline error; and 200 on success with the age bucket (one of the
8 fixed buckets), the gender (one of Male/Female) and the derived
age_group field. -/
theorem C4_http_predict_behavior (env : Env) (b : ModelBundle)
    (hready : models_ready b = true) :
    (∀ e, http_full env b (.error e) = .err 400 ("Error reading file: " ++ e)) ∧
    (∀ pipe : List ℕ → PredResult,
      http_predict b (.ok []) pipe = .err 400 "Error reading file: 400: Empty file received.") ∧
    (∀ bs, bs ≠ [] → predict_age_gender env b bs = .none_result →
      http_full env b (.ok bs) = .err 500 "Prediction failed.") ∧
    (∀ bs m, bs ≠ [] → predict_age_gender env b bs = .error m →
      http_full env b (.ok bs) =
        if containsSub "No face detected" m then .err 400 m else .err 500 m) ∧
    (∀ bs a g, bs ≠ [] → predict_age_gender env b bs = .success a g →
      http_full env b (.ok bs) = .ok a g (map_age_to_group a) ∧
        a ∈ AGE_BUCKETS ∧ (g = "Male" ∨ g = "Female")) := by
  have hnr : ¬ models_ready b = false := by rw [hready]; simp
  refine ⟨?_, ?_, ?_, ?_, ?_⟩
  · intro e
    unfold http_full http_predict
    rw [if_neg hnr]
  · intro pipe
    unfold http_predict
    rw [if_neg hnr]
    rfl
  · intro bs hbs hp
    unfold http_full http_predict
    rw [if_neg hnr]
    show (if bs = [] then _ else _) = _
    rw [if_neg hbs]
    show (match predict_age_gender env b bs with
      | PredResult.none_result => HttpResp.err 500 "Prediction failed."
      | PredResult.error m =>
        if containsSub "No face detected" m then HttpResp.err 400 m else HttpResp.err 500 m
      | PredResult.success a g => HttpResp.ok a g (map_age_to_group a)) = _
    rw [hp]
  · intro bs m hbs hp
    unfold http_full http_predict
    rw [if_neg hnr]
    show (if bs = [] then _ else _) = _
    rw [if_neg hbs]
    show (match predict_age_gender env b bs with
      | PredResult.none_result => HttpResp.err 500 "Prediction failed."
      | PredResult.error m =>
        if containsSub "No face detected" m then HttpResp.err 400 m else HttpResp.err 500 m
      | PredResult.success a g => HttpResp.ok a g (map_age_to_group a)) = _
    rw [hp]
  · intro bs a g hbs hp
    refine ⟨?_, predict_success_labels env b bs a g hp⟩
    unfold http_full http_predict
    rw [if_neg hnr]
    show (if bs = [] then _ else _) = _
    rw [if_neg hbs]
    show (match predict_age_gender env b bs with
      | PredResult.none_result => HttpResp.err 500 "Prediction failed."
      | PredResult.error m =>
        if containsSub "No face detected" m then HttpResp.err 400 m else HttpResp.err 500 m
      | PredResult.success a g => HttpResp.ok a g (map_age_to_group a)) = _
    rw [hp]

/-- C4 witness: the no-result clause applied to the undecodable-image
environment on a different non-empty upload. -/
theorem C4_witness :
    http_full envUndec bundleOK (.ok [2]) = .err 500 "Prediction failed." :=
  (C4_http_predict_behavior envUndec bundleOK rfl).2.2.1 [2] (by decide) rfl

/-- C5: for a bundle produced by the module-level loading block (which
nulls all three handles together on any failure), a null face net forces
`predict_age_gender` to return Python `None` — the missing-capability
outcome — which is distinct from the `{"error": "No face detected"}`
value produced when detection runs and finds no qualifying face. -/
theorem C5_face_net_null_distinct (env : Env) (o : LoadOutcome) (bytes : List ℕ)
    (hface : (load_models o).face_net = none) :
    predict_age_gender env (load_models o) bytes = .none_result ∧
      predict_age_gender env (load_models o) bytes ≠ .error "No face detected" := by
  cases o with
  | success f a g => simp [load_models] at hface
  | failure =>
    refine ⟨rfl, ?_⟩
    intro hc
    rw [show predict_age_gender env (load_models .failure) bytes = .none_result from rfl] at hc
    exact PredResult.noConfusion hc

/-- C5 witness: the distinctness instantiated on the failed-load bundle. -/
theorem C5_witness :
    predict_age_gender envOK (load_models .failure) [1] = .none_result ∧
      predict_age_gender envOK (load_models .failure) [1] ≠ .error "No face detected" :=
  C5_face_net_null_distinct envOK .failure [1] rfl

/-- C6: `predict_age_gender` always returns a value — Python `None`, an
error dict, or a success dict — and every exception escaping the `try`
body is converted by the `except` clauses into a returned error dict with
the corresponding prefix, never propagated to the caller. -/
theorem C6_pipeline_total (env : Env) (b : ModelBundle) (bytes : List ℕ) :
    (predict_age_gender env b bytes = .none_result ∨
      (∃ m, predict_age_gender env b bytes = .error m) ∨
      ∃ a g, predict_age_gender env b bytes = .success a g) ∧
    (∀ anet gnet, b.age_net = some anet → b.gender_net = some gnet →
      (∀ m, predict_body env b.face_net anet gnet bytes = .error (.cvError m) →
        predict_age_gender env b bytes = .error ("OpenCV processing error: " ++ m)) ∧
      (∀ m, predict_body env b.face_net anet gnet bytes = .error (.otherError m) →
        predict_age_gender env b bytes = .error ("An unexpected server error occurred: " ++ m))) := by
  constructor
  · cases hr : predict_age_gender env b bytes with
    | none_result => exact Or.inl rfl
    | error m => exact Or.inr (Or.inl ⟨m, rfl⟩)
    | success a g => exact Or.inr (Or.inr ⟨a, g, rfl⟩)
  · intro anet gnet ha hg
    have hred : predict_age_gender env b bytes =
        match predict_body env b.face_net anet gnet bytes with
        | .ok r => r
        | .error (.cvError m) => .error ("OpenCV processing error: " ++ m)
        | .error (.otherError m) => .error ("An unexpected server error occurred: " ++ m) := by
      unfold predict_age_gender
      rw [ha, hg]
    constructor
    · intro m hm
      rw [hred, hm]
    · intro m hm
      rw [hred, hm]

/-- C6 witness: the exception-conversion clause applied to the
environment whose decoder raises `cv2.error`. -/
theorem C6_witness :
    predict_age_gender envRaise bundleOK [1] =
      .error ("OpenCV processing error: " ++ "decode blew up") :=
  ((C6_pipeline_total envRaise bundleOK [1]).2 ageNet1 genderNet1 rfl rfl).1
    "decode blew up" rfl

/-- C7: an empty payload is rejected before the pipeline runs — the HTTP
handler (once past the readiness gate) answers 400 and the RPC handler
answers INVALID_ARGUMENT, and in both cases the response is the same for
every pipeline function, so `predict_age_gender` is never consulted. -/
theorem C7_empty_payload :
    (∀ (b : ModelBundle) (pipe : List ℕ → PredResult), models_ready b = true →
      http_predict b (.ok []) pipe = .err 400 "Error reading file: 400: Empty file received.") ∧
    (∀ pipe : List ℕ → PredResult,
      grpc_predict pipe [] = ⟨.INVALID_ARGUMENT, "Empty image data", "", "", 0⟩) := by
  constructor
  · intro b pipe hready
    unfold http_predict
    rw [if_neg (by rw [hready]; simp)]
    rfl
  · intro pipe
    rfl

/-- C7 witness: the empty-payload rejection instantiated on the loaded
bundle with the real pipeline plugged into both front-ends. -/
theorem C7_witness :
    http_predict bundleOK (.ok []) (predict_age_gender envOK bundleOK) =
        .err 400 "Error reading file: 400: Empty file received." ∧
      grpc_predict (predict_age_gender envOK bundleOK) [] =
        ⟨.INVALID_ARGUMENT, "Empty image data", "", "", 0⟩ :=
  ⟨C7_empty_payload.1 bundleOK (predict_age_gender envOK bundleOK) rfl,
   C7_empty_payload.2 (predict_age_gender envOK bundleOK)⟩

/-- C8: whenever the pipeline returns a success result, the RPC handler
answers OK with `age_group = map_age_to_group(age)`, the lowercased
gender label (hence `"male"` or `"female"`), and the fixed constant
confidence 0.95, regardless of the input.  (The decoder hypothesis pins
the behaviour of `cv2.imdecode` on an empty buffer, ensuring the success
hypothesis entails a non-empty payload.) -/
theorem C8_rpc_success (env : Env) (b : ModelBundle) (bs : List ℕ) (a g : String)
    (hs : predict_age_gender env b bs = .success a g)
    (hdec : env.imdecode [] = .ok none) :
    grpc_full env b bs = ⟨.OK, "", map_age_to_group a, pyLower g, 95/100⟩ ∧
      (pyLower g = "male" ∨ pyLower g = "female") := by
  have hbs : bs ≠ [] := by
    intro hb
    subst hb
    unfold predict_age_gender at hs
    split at hs
    · rename_i anet gnet ha hg
      split at hs
      · rename_i r hr
        rw [hs] at hr
        unfold predict_body at hr
        rw [hdec] at hr
        simp at hr
      · exact PredResult.noConfusion hs
      · exact PredResult.noConfusion hs
    · exact PredResult.noConfusion hs
  have hlab := predict_success_labels env b bs a g hs
  constructor
  · unfold grpc_full grpc_predict
    rw [if_neg hbs, hs]
  · rcases hlab.2 with h | h <;> subst h
    · exact Or.inl rfl
    · exact Or.inr rfl

/-- C8 witness: the success translation applied to the loaded bundle and
an environment under which the pipeline concretely succeeds with bucket
"(25-32)" and gender "Male". -/
theorem C8_witness :
    grpc_full envOK bundleOK [1] =
        ⟨.OK, "", map_age_to_group "(25-32)", pyLower "Male", 95/100⟩ ∧
      (pyLower "Male" = "male" ∨ pyLower "Male" = "female") :=
  C8_rpc_success envOK bundleOK [1] "(25-32)" "Male" predict_envOK rfl

/-- C9: with the external capabilities fixed (they are functions of their
inputs in this model), `predict_age_gender` is deterministic — identical
byte inputs yield identical results and identical derived age groups. -/
theorem C9_predict_deterministic (env : Env) (b : ModelBundle) (bs1 bs2 : List ℕ)
    (h : bs1 = bs2) :
    predict_age_gender env b bs1 = predict_age_gender env b bs2 ∧
      result_age_group (predict_age_gender env b bs1) =
        result_age_group (predict_age_gender env b bs2) := by
  subst h
  exact ⟨rfl, rfl⟩

/-- C9 witness: determinism instantiated on a concrete repeated call. -/
theorem C9_witness :
    predict_age_gender envOK bundleOK [1] = predict_age_gender envOK bundleOK [1] ∧
      result_age_group (predict_age_gender envOK bundleOK [1]) =
        result_age_group (predict_age_gender envOK bundleOK [1]) :=
  C9_predict_deterministic envOK bundleOK [1] [1] rfl

/-- C10: the "Failed to extract face region" branch is unreachable — any
box the `_find_face` loop returns for a positive-dimension frame yields a
non-empty padded crop, and consequently `predict_age_gender` never
returns that error for any environment, bundle and input. -/
theorem C10_crop_nonempty :
    (∀ (frame : Image) (ds : List Detection) (b : FBox),
      0 < frame.h → 0 < frame.w →
      find_face_loop (frame.w : ℤ) (frame.h : ℤ) ds = some b →
      pySize (cropPad frame b) ≠ 0) ∧
    (∀ (env : Env) (b : ModelBundle) (bytes : List ℕ),
      predict_age_gender env b bytes ≠ .error "Failed to extract face region") := by
  constructor
  · intro frame ds b hh hw hb
    have hbox := find_face_loop_box (frame.w : ℤ) (frame.h : ℤ) ds b hb
    exact cropPad_size_pos frame b hh hw hbox.2.1 hbox.2.2.1 hbox.2.2.2.1
      hbox.2.2.2.2.1 hbox.2.2.2.2.2.1 hbox.2.2.2.2.2.2
  · exact predict_no_crop_fail

/-- C10 witness: the crop of the concrete box found in a 100 × 100 frame
is non-empty, and the concrete pipeline never reports the crop failure. -/
theorem C10_witness :
    pySize (cropPad ⟨100, 100⟩ boxMid) ≠ 0 ∧
      predict_age_gender envOK bundleOK [1] ≠ .error "Failed to extract face region" :=
  ⟨C10_crop_nonempty.1 ⟨100, 100⟩ [detMid] boxMid (by decide) (by decide)
      find_face_loop_detMid,
   C10_crop_nonempty.2 envOK bundleOK [1]⟩
